import Mathlib

/-!
# truffle-config.js

A shallow embedding of the object exported by `truffle-config.js`: the `networks`
registry, the `compilers` record, the `plugins` list and the `api_keys` table,
followed by the properties of that object.

* `process.env` is a value of type `Env`; a variable that is not set reads as `none`
  (JavaScript `undefined`).
* `require('dotenv').config()` runs before the literal is built and only fills
  `process.env`; `Env` is the environment after it.
* An object literal is the list of its own keys with their values, in source order.
* A property that a profile does not set is `none`.
* A member access `networks[name]` gives the value under an own key, else the member
  inherited from `Object.prototype` under that name, else `undefined`; it raises nothing.
* `new HDWalletProvider(a, b, c)` is kept as the record of the three arguments it is
  given: the wallet library is outside the file.
* An arrow function `() => ...` that reads `process.env` in its body is a function of
  the environment at the moment it is called.
-/

namespace TruffleConfig

/-- The process environment, `process.env`: a variable name gives its value, or `none`
when the variable is not set. -/
abbrev Env := String → Option String

/-- The environment in which no variable is set. -/
def emptyEnv : Env := fun _ => none

/-- The arguments of one `new HDWalletProvider(mnemonic, providerOrUrl, addressIndex)`
call. An argument that is `undefined`, or not passed, is `none`. -/
structure HDWalletProvider where
  mnemonic : Option String
  providerOrUrl : Option String
  addressIndex : Option Int
  deriving DecidableEq, Repr

/-- The value of a `network_id` property: a string literal or a number literal. -/
inductive NetworkId where
  | str (s : String)
  | num (n : Int)
  deriving DecidableEq, Repr

/-- One entry of `networks`. Every property that some entry of the source sets is a
field; `none` is a property the entry does not set (or sets to `undefined`). -/
structure NetworkProfile where
  host : Option String
  port : Option Int
  provider : Option (Env → HDWalletProvider)
  network_id : NetworkId
  gas : Option Int
  gasPrice : Option Int
  timeoutBlocks : Option Int
  skipDryRun : Option Bool
  from_ : Option String

/-- The literal `compilers.solc.settings.optimizer`. -/
structure Optimizer where
  enabled : Bool
  runs : Int
  deriving DecidableEq, Repr

/-- The literal `compilers.solc.settings`. -/
structure Settings where
  optimizer : Optimizer
  deriving DecidableEq, Repr

/-- The literal `compilers.solc`. -/
structure Solc where
  version : String
  settings : Settings
  deriving DecidableEq, Repr

/-- The literal `compilers`. -/
structure Compilers where
  solc : Solc
  deriving DecidableEq, Repr

/-- The exported object, `module.exports`. -/
structure Config where
  networks : List (String × NetworkProfile)
  compilers : Compilers
  plugins : List String
  api_keys : List (String × Option String)

/-- The entry `networks.development`. -/
def development : NetworkProfile :=
  { host := some "127.0.0.1"
    port := some 8545
    provider := none
    network_id := .str "*"
    gas := none
    gasPrice := none
    timeoutBlocks := none
    skipDryRun := none
    from_ := none }

/-- The entry `networks.ropsten`. -/
def ropsten : NetworkProfile :=
  { host := none
    port := none
    provider := some (fun callEnv => ⟨callEnv "MNEMONIC", callEnv "ROPSTEN", some 0⟩)
    network_id := .num 3
    gas := none
    gasPrice := some 10000000000
    timeoutBlocks := some 5000000
    skipDryRun := some true
    from_ := none }

/-- The entry `networks.rinkeby`. -/
def rinkeby : NetworkProfile :=
  { host := none
    port := none
    provider := some (fun callEnv => ⟨callEnv "MNEMONIC", callEnv "RINKEBY", none⟩)
    network_id := .num 4
    gas := none
    gasPrice := some 10000000000
    timeoutBlocks := none
    skipDryRun := some true
    from_ := none }

/-- The entry `networks.goerli`. -/
def goerli : NetworkProfile :=
  { host := none
    port := none
    provider := some (fun callEnv => ⟨callEnv "MNEMONIC", callEnv "GOERLI", none⟩)
    network_id := .num 5
    gas := none
    gasPrice := some 10000000000
    timeoutBlocks := none
    skipDryRun := none
    from_ := none }

/-- The entry `networks.bsctestnet`. -/
def bsctestnet : NetworkProfile :=
  { host := none
    port := none
    provider := some (fun callEnv => ⟨callEnv "MNEMONIC", callEnv "BSCTESTNET", none⟩)
    network_id := .num 97
    gas := some 15000000
    gasPrice := none
    timeoutBlocks := none
    skipDryRun := some true
    from_ := none }

/-- The entry `networks.bscmainnet`. -/
def bscmainnet : NetworkProfile :=
  { host := none
    port := none
    provider := some (fun callEnv => ⟨callEnv "MNEMONIC", callEnv "BSCMAINNET", none⟩)
    network_id := .num 56
    gas := none
    gasPrice := none
    timeoutBlocks := none
    skipDryRun := some true
    from_ := none }

/-- The entry `networks.mainnet`. Its `from` property is `process.env.ACCOUNT`, read
when the object literal is built, that is, in the environment of the load. -/
def mainnet (env : Env) : NetworkProfile :=
  { host := none
    port := none
    provider := some (fun callEnv => ⟨callEnv "MNEMONIC", callEnv "MAINNET", some 0⟩)
    network_id := .num 1
    gas := none
    gasPrice := some 50000000000
    timeoutBlocks := some 5000000
    skipDryRun := some true
    from_ := env "ACCOUNT" }

/-- The literal `networks`, built in the environment `env`. -/
def networks (env : Env) : List (String × NetworkProfile) :=
  [ ("development", development),
    ("ropsten", ropsten),
    ("rinkeby", rinkeby),
    ("goerli", goerli),
    ("bsctestnet", bsctestnet),
    ("bscmainnet", bscmainnet),
    ("mainnet", mainnet env) ]

/-- The literal `compilers`. -/
def compilers : Compilers :=
  { solc :=
      { version := "0.8.10"
        settings := { optimizer := { enabled := true, runs := 9999 } } } }

/-- The literal `plugins`. -/
def plugins : List String := ["truffle-plugin-verify"]

/-- The literal `api_keys`, built in the environment `env`. -/
def api_keys (env : Env) : List (String × Option String) :=
  [ ("etherscan", env "ETHERAPI"),
    ("bscscan", env "BSCSCAN") ]

/-- The value of `module.exports` when the file is loaded in the environment `env`. -/
def config (env : Env) : Config :=
  { networks := networks env
    compilers := compilers
    plugins := plugins
    api_keys := api_keys env }

/-- The errors of the specification. The source file raises none of them. -/
inductive ConfigurationError where
  | UnknownNetwork
  | MissingSecret (name : String)
  | InvalidNumericField (field : String)
  deriving DecidableEq, Repr

/-- The property names that every object literal inherits from `Object.prototype`. -/
def objectPrototypeKeys : List String :=
  ["constructor", "hasOwnProperty", "isPrototypeOf", "propertyIsEnumerable",
    "toLocaleString", "toString", "valueOf", "__proto__", "__defineGetter__",
    "__defineSetter__", "__lookupGetter__", "__lookupSetter__"]

/-- The value of a member access `object[name]` on an object literal: the value stored
under an own key, the member of `Object.prototype` that the literal inherits under that
name, or `undefined`. -/
inductive Member (α : Type) where
  | own (value : α)
  | inherited (key : String)
  | undefined

/-- The member access `object[name]` on an object literal: an own key first, then the
names inherited from `Object.prototype`, else `undefined`. -/
def getMember {α : Type} (object : List (String × α)) (name : String) : Member α :=
  match object.lookup name with
  | some value => .own value
  | none => if name ∈ objectPrototypeKeys then .inherited name else .undefined

/-- Selection of a profile by name, the member access `module.exports.networks[name]`
after a load in `env`. The specification calls it `resolve`. The access raises nothing,
whatever the name: the result is always `.ok`, and for a name that is no key of the
literal it is `undefined` or an inherited member. Nothing else is done at selection: the
source has no check of a name or of a secret, and the `provider` function is returned as
stored, not called. -/
def resolve (env : Env) (name : String) :
    Except ConfigurationError (Member NetworkProfile) :=
  .ok (getMember (config env).networks name)

/-- Calling `provider()` of the profile stored under `name`, in the environment in which
the file was loaded. `none` when there is no such profile or it has no `provider`. -/
def connection (env : Env) (name : String) : Option HDWalletProvider :=
  match (config env).networks.lookup name with
  | some profile =>
    match profile.provider with
    | some factory => some (factory env)
    | none => none
  | none => none

/-- The compiler record, `module.exports.compilers.solc`, after a load in `env`. The
specification calls it `get`. -/
def get (env : Env) : Solc :=
  (config env).compilers.solc

/-- The key of a verification service, `module.exports.api_keys[service]`, after a load
in `env`. A service without an entry and an entry whose value is `undefined` both read as
`none`. The specification calls it `apiKey`. -/
def apiKey (env : Env) (service : String) : Option String :=
  match (config env).api_keys.lookup service with
  | some key => key
  | none => none

/-- The name in upper case, character by character. -/
def upperCase (s : String) : String :=
  ⟨s.data.map Char.toUpper⟩

/-- The variable that the specification assigns to a public network for its RPC URL:
the network name in upper case. -/
def specRpcVariable (name : String) : String :=
  upperCase name

/-- The keys of `networks` that the specification lists. -/
def specNetworkNames : List String :=
  ["development", "ropsten", "rinkeby", "goerli", "bsctestnet", "bscmainnet", "mainnet"]

/-- The public networks of the specification: every listed name but "development". -/
def specPublicNames : List String :=
  ["ropsten", "rinkeby", "goerli", "bsctestnet", "bscmainnet", "mainnet"]

/-- The nine variables that the specification says are consumed: the mnemonic, one RPC
URL for each public network, and the two API keys. -/
def specVariables : List String :=
  "MNEMONIC" :: specPublicNames.map specRpcVariable ++ ["ETHERAPI", "BSCSCAN"]

/-- The variables that the source reads: the nine of the specification and `ACCOUNT`. -/
def sourceVariables : List String :=
  "ACCOUNT" :: specVariables

/-- An environment in which only `ACCOUNT` is set. -/
def accountEnv : Env :=
  fun key => if key = "ACCOUNT" then some "0x0000000000000000000000000000000000000001" else none

/-- An environment in which every secret is set, and nothing else. -/
def fullEnv : Env :=
  fun key =>
    if key = "MNEMONIC" then some "test test test test test test test test test test test junk"
    else if key ∈ specPublicNames.map specRpcVariable then some ("https://rpc.example/" ++ key)
    else if key = "ETHERAPI" then some "ETHERSCAN-KEY"
    else if key = "BSCSCAN" then some "BSCSCAN-KEY"
    else none

/-- The environment `fullEnv` with one more variable, `PATH`, set. -/
def fullEnvWithPath : Env :=
  fun key => if key = "PATH" then some "/usr/bin" else fullEnv key

/-! ## Shared lemmas -/

theorem networks_keys (env : Env) :
    (config env).networks.map Prod.fst = specNetworkNames := rfl

theorem networks_keys_nodup (env : Env) :
    ((config env).networks.map Prod.fst).Nodup := by
  rw [networks_keys]; decide

theorem mem_networks_iff (env : Env) (name : String) (p : NetworkProfile) :
    (name, p) ∈ (config env).networks ↔
      (name = "development" ∧ p = development) ∨ (name = "ropsten" ∧ p = ropsten) ∨
      (name = "rinkeby" ∧ p = rinkeby) ∨ (name = "goerli" ∧ p = goerli) ∨
      (name = "bsctestnet" ∧ p = bsctestnet) ∨ (name = "bscmainnet" ∧ p = bscmainnet) ∨
      (name = "mainnet" ∧ p = mainnet env) := by
  simp [config, networks]

theorem mem_specNetworkNames_iff (name : String) :
    name ∈ specNetworkNames ↔
      name = "development" ∨ name = "ropsten" ∨ name = "rinkeby" ∨ name = "goerli" ∨
      name = "bsctestnet" ∨ name = "bscmainnet" ∨ name = "mainnet" := by
  simp [specNetworkNames]

theorem lookup_of_not_key (env : Env) (name : String) (h : name ∉ specNetworkNames) :
    (config env).networks.lookup name = none := by
  rw [List.lookup_eq_none_iff]
  intro q hq
  simp only [bne_iff_ne, ne_eq]
  intro hk
  apply h
  rw [← networks_keys env, hk]
  exact List.mem_map_of_mem Prod.fst hq

theorem resolve_of_not_key (env : Env) (name : String) (h : name ∉ specNetworkNames) :
    resolve env name =
      .ok (if name ∈ objectPrototypeKeys then .inherited name else .undefined) := by
  simp only [resolve, getMember, lookup_of_not_key env name h]

theorem mem_specPublicNames_iff (name : String) :
    name ∈ specPublicNames ↔
      name = "ropsten" ∨ name = "rinkeby" ∨ name = "goerli" ∨
      name = "bsctestnet" ∨ name = "bscmainnet" ∨ name = "mainnet" := by
  simp [specPublicNames]

theorem specRpcVariable_values :
    specRpcVariable "ropsten" = "ROPSTEN" ∧ specRpcVariable "rinkeby" = "RINKEBY" ∧
    specRpcVariable "goerli" = "GOERLI" ∧ specRpcVariable "bsctestnet" = "BSCTESTNET" ∧
    specRpcVariable "bscmainnet" = "BSCMAINNET" ∧ specRpcVariable "mainnet" = "MAINNET" := by
  decide

/-- The profile of a public network and the function stored as its `provider`: the
function passes the values of `MNEMONIC` and of the upper-cased network name, as they are
when it is called, to the constructor. -/
theorem resolve_public (env : Env) (name : String) (h : name ∈ specPublicNames) :
    ∃ p factory index, resolve env name = .ok (.own p) ∧ p.provider = some factory ∧
      p.host = none ∧ p.port = none ∧
      factory = fun e => ⟨e "MNEMONIC", e (specRpcVariable name), index⟩ := by
  obtain ⟨h1, h2, h3, h4, h5, h6⟩ := specRpcVariable_values
  rw [mem_specPublicNames_iff] at h
  rcases h with rfl | rfl | rfl | rfl | rfl | rfl
  · exact ⟨ropsten, _, some 0, rfl, rfl, rfl, rfl, by rw [h1]⟩
  · exact ⟨rinkeby, _, none, rfl, rfl, rfl, rfl, by rw [h2]⟩
  · exact ⟨goerli, _, none, rfl, rfl, rfl, rfl, by rw [h3]⟩
  · exact ⟨bsctestnet, _, none, rfl, rfl, rfl, rfl, by rw [h4]⟩
  · exact ⟨bscmainnet, _, none, rfl, rfl, rfl, rfl, by rw [h5]⟩
  · exact ⟨mainnet env, _, some 0, rfl, rfl, rfl, rfl, by rw [h6]⟩

/-! ## Selection by name -/

/-- C1: in every environment, for every name that is a key of `networks` (the keys are
development, ropsten, rinkeby, goerli, bsctestnet, bscmainnet, mainnet), `resolve`
succeeds and returns the profile stored under that name: the profile is an entry of the
registry under the requested key, no other profile is stored under that key, and the
profile is stored under no other key. -/
theorem resolve_registered_name (env : Env) (name : String)
    (h : name ∈ (config env).networks.map Prod.fst) :
    (config env).networks.map Prod.fst = specNetworkNames ∧
    ∃ p, resolve env name = .ok (.own p) ∧ (name, p) ∈ (config env).networks ∧
      (∀ q, (name, q) ∈ (config env).networks → q = p) ∧
      (∀ key, (key, p) ∈ (config env).networks → key = name) := by
  refine ⟨networks_keys env, ?_⟩
  rw [networks_keys, mem_specNetworkNames_iff] at h
  rcases h with rfl | rfl | rfl | rfl | rfl | rfl | rfl
  · refine ⟨development, rfl, by simp [mem_networks_iff], ?_, ?_⟩
    · intro q hq; simpa [mem_networks_iff] using hq
    · intro key hk
      simpa [mem_networks_iff, development, ropsten, rinkeby, goerli, bsctestnet,
        bscmainnet, mainnet] using hk
  · refine ⟨ropsten, rfl, by simp [mem_networks_iff], ?_, ?_⟩
    · intro q hq; simpa [mem_networks_iff] using hq
    · intro key hk
      simpa [mem_networks_iff, development, ropsten, rinkeby, goerli, bsctestnet,
        bscmainnet, mainnet] using hk
  · refine ⟨rinkeby, rfl, by simp [mem_networks_iff], ?_, ?_⟩
    · intro q hq; simpa [mem_networks_iff] using hq
    · intro key hk
      simpa [mem_networks_iff, development, ropsten, rinkeby, goerli, bsctestnet,
        bscmainnet, mainnet] using hk
  · refine ⟨goerli, rfl, by simp [mem_networks_iff], ?_, ?_⟩
    · intro q hq; simpa [mem_networks_iff] using hq
    · intro key hk
      simpa [mem_networks_iff, development, ropsten, rinkeby, goerli, bsctestnet,
        bscmainnet, mainnet] using hk
  · refine ⟨bsctestnet, rfl, by simp [mem_networks_iff], ?_, ?_⟩
    · intro q hq; simpa [mem_networks_iff] using hq
    · intro key hk
      simpa [mem_networks_iff, development, ropsten, rinkeby, goerli, bsctestnet,
        bscmainnet, mainnet] using hk
  · refine ⟨bscmainnet, rfl, by simp [mem_networks_iff], ?_, ?_⟩
    · intro q hq; simpa [mem_networks_iff] using hq
    · intro key hk
      simpa [mem_networks_iff, development, ropsten, rinkeby, goerli, bsctestnet,
        bscmainnet, mainnet] using hk
  · refine ⟨mainnet env, rfl, by simp [mem_networks_iff], ?_, ?_⟩
    · intro q hq; simpa [mem_networks_iff] using hq
    · intro key hk
      simpa [mem_networks_iff, development, ropsten, rinkeby, goerli, bsctestnet,
        bscmainnet, mainnet] using hk

/-- The statement of C1 at the name "goerli" in the empty environment. -/
theorem resolve_registered_name_witness :
    "goerli" ∈ (config emptyEnv).networks.map Prod.fst ∧
    ((config emptyEnv).networks.map Prod.fst = specNetworkNames ∧
    ∃ p, resolve emptyEnv "goerli" = .ok (.own p) ∧
      ("goerli", p) ∈ (config emptyEnv).networks ∧
      (∀ q, ("goerli", q) ∈ (config emptyEnv).networks → q = p) ∧
      (∀ key, (key, p) ∈ (config emptyEnv).networks → key = "goerli")) :=
  ⟨by decide, resolve_registered_name emptyEnv "goerli" (by decide)⟩

/-- C2, as stated, fails: "unknown-network-xyz" is non-empty and no key of `networks`,
and `resolve` does not fail on it, with `UnknownNetwork` or any other error: the member
access gives `undefined`. On "constructor", also non-empty and no key, it gives the
member that the literal inherits. -/
theorem unknown_network_not_reported :
    "unknown-network-xyz" ≠ "" ∧
    "unknown-network-xyz" ∉ (config emptyEnv).networks.map Prod.fst ∧
    resolve emptyEnv "unknown-network-xyz" ≠ .error .UnknownNetwork ∧
    resolve emptyEnv "unknown-network-xyz" = .ok .undefined ∧
    "constructor" ≠ "" ∧
    "constructor" ∉ (config emptyEnv).networks.map Prod.fst ∧
    resolve emptyEnv "constructor" = .ok (.inherited "constructor") := by
  refine ⟨by decide, by decide, ?_, rfl, by decide, by decide, rfl⟩
  intro hfail
  cases hfail

/-- C2, amended: in every environment, for every non-empty string that is not one of
the seven keys of `networks`, `resolve` raises no error and returns no profile of the
registry: the result is `undefined`, or, when the name is one that object literals
inherit from `Object.prototype`, the inherited member. -/
theorem resolve_not_own_key (env : Env) (name : String)
    (_hne : name ≠ "") (hkey : name ∉ (config env).networks.map Prod.fst) :
    (∀ err, resolve env name ≠ .error err) ∧
    (∀ p, resolve env name ≠ .ok (.own p)) ∧
    (name ∉ objectPrototypeKeys → resolve env name = .ok .undefined) ∧
    (name ∈ objectPrototypeKeys → resolve env name = .ok (.inherited name)) := by
  rw [networks_keys] at hkey
  have hres := resolve_of_not_key env name hkey
  refine ⟨?_, ?_, ?_, ?_⟩
  · intro err herr
    rw [hres] at herr
    cases herr
  · intro p hp
    rw [hres] at hp
    by_cases hin : name ∈ objectPrototypeKeys
    · rw [if_pos hin] at hp
      cases hp
    · rw [if_neg hin] at hp
      cases hp
  · intro hin
    rw [hres, if_neg hin]
  · intro hin
    rw [hres, if_pos hin]

/-- The amended C2 at the name "unknown-network-xyz" in the empty environment. -/
theorem resolve_not_own_key_witness :
    "unknown-network-xyz" ≠ "" ∧
    "unknown-network-xyz" ∉ (config emptyEnv).networks.map Prod.fst ∧
    (∀ err, resolve emptyEnv "unknown-network-xyz" ≠ .error err) ∧
    (∀ p, resolve emptyEnv "unknown-network-xyz" ≠ .ok (.own p)) ∧
    ("unknown-network-xyz" ∉ objectPrototypeKeys →
      resolve emptyEnv "unknown-network-xyz" = .ok .undefined) ∧
    ("unknown-network-xyz" ∈ objectPrototypeKeys →
      resolve emptyEnv "unknown-network-xyz" = .ok (.inherited "unknown-network-xyz")) :=
  ⟨by decide, by decide,
    resolve_not_own_key emptyEnv "unknown-network-xyz" (by decide) (by decide)⟩

/-! ## Loading and the stored provider functions -/

/-- C3: in every environment, also one in which no variable is set, the load gives a
registry in which "development" is selected successfully and in which every public
network has its `provider` stored as a function that has not been called: the stored
function is the same whatever the environment of the load was, and what it passes as
mnemonic is the value of `MNEMONIC` in the environment in which it is called. -/
theorem load_keeps_provider_unevaluated (env : Env) (name : String)
    (h : name ∈ specPublicNames) :
    resolve env "development" = .ok (.own development) ∧
    ∃ p factory, resolve env name = .ok (.own p) ∧ p.provider = some factory ∧
      (∀ env', ∃ p', resolve env' name = .ok (.own p') ∧ p'.provider = some factory) ∧
      (∀ env', (factory env').mnemonic = env' "MNEMONIC") := by
  refine ⟨rfl, ?_⟩
  obtain ⟨p, factory, index, hp, hf, -, -, hdef⟩ := resolve_public env name h
  refine ⟨p, factory, hp, hf, ?_, ?_⟩
  · intro env'
    obtain ⟨p', factory', index', hp', hf', -, -, hdef'⟩ := resolve_public env' name h
    refine ⟨p', hp', ?_⟩
    have hfac : some factory = some factory' := by
      rw [mem_specPublicNames_iff] at h
      rcases h with rfl | rfl | rfl | rfl | rfl | rfl <;>
        · rw [← hf, ← hf']
          cases hp
          cases hp'
          rfl
    rw [hf', hfac]
  · intro env'
    rw [hdef]

/-- The statement of C3 for "mainnet" after a load in the empty environment. -/
theorem load_keeps_provider_unevaluated_witness :
    "mainnet" ∈ specPublicNames ∧
    (resolve emptyEnv "development" = .ok (.own development) ∧
    ∃ p factory, resolve emptyEnv "mainnet" = .ok (.own p) ∧ p.provider = some factory ∧
      (∀ env', ∃ p', resolve env' "mainnet" = .ok (.own p') ∧ p'.provider = some factory) ∧
      (∀ env', (factory env').mnemonic = env' "MNEMONIC")) :=
  ⟨by decide, load_keeps_provider_unevaluated emptyEnv "mainnet" (by decide)⟩

/-- C4: in the empty environment `resolve "development"` succeeds; the profile has host
'127.0.0.1', port 8545, network id '*' and no provider function, and it is the same
profile in every environment. -/
theorem resolve_development :
    ∃ p, resolve emptyEnv "development" = .ok (.own p) ∧
      p.host = some "127.0.0.1" ∧ p.port = some 8545 ∧ p.network_id = .str "*" ∧
      p.provider = none ∧ ∀ env, resolve env "development" = .ok (.own p) :=
  ⟨development, rfl, rfl, rfl, rfl, rfl, fun _ => rfl⟩

/-- C5, as stated, fails: in the empty environment `MNEMONIC` and `ROPSTEN` are absent,
yet `resolve "ropsten"` succeeds, reports no `MissingSecret`, and calling the stored
provider function passes the two absent values on to the constructor. -/
theorem missing_secret_not_reported :
    "ropsten" ∈ specPublicNames ∧
    emptyEnv "MNEMONIC" = none ∧ emptyEnv (specRpcVariable "ropsten") = none ∧
    resolve emptyEnv "ropsten" = .ok (.own ropsten) ∧
    (∀ v, resolve emptyEnv "ropsten" ≠ .error (.MissingSecret v)) ∧
    connection emptyEnv "ropsten" = some ⟨none, none, some 0⟩ := by
  refine ⟨by decide, rfl, rfl, rfl, ?_, rfl⟩
  intro v hv
  cases hv

/-- C5, amended: for every public network and every environment in which `MNEMONIC` or
the RPC-URL variable of the network is absent, `resolve` still succeeds, the profile has
a provider function, and that function, called in this environment, passes the values of
the two variables to the constructor as they are, so that an absent variable arrives as
an absent argument. -/
theorem missing_secret_passed_through (env : Env) (name : String)
    (h : name ∈ specPublicNames)
    (hmiss : env "MNEMONIC" = none ∨ env (specRpcVariable name) = none) :
    ∃ p factory, resolve env name = .ok (.own p) ∧ p.provider = some factory ∧
      (factory env).mnemonic = env "MNEMONIC" ∧
      (factory env).providerOrUrl = env (specRpcVariable name) ∧
      ((factory env).mnemonic = none ∨ (factory env).providerOrUrl = none) := by
  obtain ⟨p, factory, index, hp, hf, -, -, hdef⟩ := resolve_public env name h
  refine ⟨p, factory, hp, hf, ?_, ?_, ?_⟩
  · rw [hdef]
  · rw [hdef]
  · rw [hdef]
    exact hmiss

/-- The amended C5 for "bsctestnet" in an environment where only `ACCOUNT` is set. -/
theorem missing_secret_passed_through_witness :
    "bsctestnet" ∈ specPublicNames ∧
    (accountEnv "MNEMONIC" = none ∨ accountEnv (specRpcVariable "bsctestnet") = none) ∧
    ∃ p factory, resolve accountEnv "bsctestnet" = .ok (.own p) ∧ p.provider = some factory ∧
      (factory accountEnv).mnemonic = accountEnv "MNEMONIC" ∧
      (factory accountEnv).providerOrUrl = accountEnv (specRpcVariable "bsctestnet") ∧
      ((factory accountEnv).mnemonic = none ∨ (factory accountEnv).providerOrUrl = none) :=
  ⟨by decide, by decide,
    missing_secret_passed_through accountEnv "bsctestnet" (by decide) (by decide)⟩

/-! ## API keys and the compiler record -/

/-- C6: in every environment `apiKey "etherscan"` is the value of `ETHERAPI`, and
`apiKey "bscscan"` is the value of `BSCSCAN`: the value when the variable is set, `none`
(no error) when it is not. -/
theorem apiKey_reads_variable (env : Env) :
    apiKey env "etherscan" = env "ETHERAPI" ∧ apiKey env "bscscan" = env "BSCSCAN" :=
  ⟨rfl, rfl⟩

/-- C8: in every environment `get` returns the same record, with version '0.8.10', the
optimizer enabled and 9999 runs, a non-negative number. -/
theorem get_constant (env : Env) :
    get env = get emptyEnv ∧ (get env).version = "0.8.10" ∧
    (get env).settings.optimizer.enabled = true ∧
    (get env).settings.optimizer.runs = 9999 ∧ 0 ≤ (get env).settings.optimizer.runs :=
  ⟨rfl, rfl, rfl, rfl, show (0 : Int) ≤ 9999 by decide⟩

/-! ## Shape of the profiles -/

/-- C9: for every profile of `networks`, having the network id '*', having a host and a
port, having no provider function and being stored under "development" are equivalent;
every profile stored under another name has a numeric network id and a provider function,
and neither host nor port. -/
theorem profile_shape (env : Env) (name : String) (p : NetworkProfile)
    (h : (name, p) ∈ (config env).networks) :
    (p.network_id = .str "*" ↔ (p.host.isSome ∧ p.port.isSome)) ∧
    ((p.host.isSome ∧ p.port.isSome) ↔ p.provider.isNone) ∧
    (p.provider.isNone ↔ name = "development") ∧
    (name ≠ "development" →
      (∃ n, p.network_id = .num n) ∧ p.provider.isSome ∧ p.host = none ∧ p.port = none) := by
  rw [mem_networks_iff] at h
  rcases h with ⟨rfl, rfl⟩ | ⟨rfl, rfl⟩ | ⟨rfl, rfl⟩ | ⟨rfl, rfl⟩ | ⟨rfl, rfl⟩ |
    ⟨rfl, rfl⟩ | ⟨rfl, rfl⟩
  · simp [development]
  · simp [ropsten]
  · simp [rinkeby]
  · simp [goerli]
  · simp [bsctestnet]
  · simp [bscmainnet]
  · simp [mainnet]

/-- The statement of C9 for the two profiles "development" and "bscmainnet". -/
theorem profile_shape_witness :
    ("development", development) ∈ (config emptyEnv).networks ∧
    ((development.network_id = .str "*" ↔
        (development.host.isSome ∧ development.port.isSome)) ∧
      ((development.host.isSome ∧ development.port.isSome) ↔ development.provider.isNone) ∧
      (development.provider.isNone ↔ "development" = "development") ∧
      ("development" ≠ "development" →
        (∃ n, development.network_id = .num n) ∧ development.provider.isSome ∧
          development.host = none ∧ development.port = none)) ∧
    ("bscmainnet", bscmainnet) ∈ (config emptyEnv).networks ∧
    ((∃ n, bscmainnet.network_id = .num n) ∧ bscmainnet.provider.isSome ∧
      bscmainnet.host = none ∧ bscmainnet.port = none) :=
  have hdev : ("development", development) ∈ (config emptyEnv).networks := by
    simp [mem_networks_iff]
  have hbsc : ("bscmainnet", bscmainnet) ∈ (config emptyEnv).networks := by
    simp [mem_networks_iff]
  ⟨hdev, profile_shape emptyEnv "development" development hdev, hbsc,
    (profile_shape emptyEnv "bscmainnet" bscmainnet hbsc).2.2.2 (by decide)⟩

/-- C10: for every profile of `networks` that has a provider function, the function
passes to the constructor the value of `MNEMONIC` and the value of the variable named by
the upper-cased name of its own network (ROPSTEN, RINKEBY, GOERLI, BSCTESTNET,
BSCMAINNET, MAINNET), and its result is the same in any two environments that agree on
these two variables: it reads no other network's variable. -/
theorem provider_reads_own_variables (env : Env) (name : String) (p : NetworkProfile)
    (factory : Env → HDWalletProvider)
    (h : (name, p) ∈ (config env).networks) (hf : p.provider = some factory) :
    name ∈ specPublicNames ∧
    specPublicNames.map specRpcVariable =
      ["ROPSTEN", "RINKEBY", "GOERLI", "BSCTESTNET", "BSCMAINNET", "MAINNET"] ∧
    (∀ e, (factory e).mnemonic = e "MNEMONIC" ∧
      (factory e).providerOrUrl = e (specRpcVariable name)) ∧
    (∀ e1 e2, e1 "MNEMONIC" = e2 "MNEMONIC" →
      e1 (specRpcVariable name) = e2 (specRpcVariable name) → factory e1 = factory e2) := by
  obtain ⟨h1, h2, h3, h4, h5, h6⟩ := specRpcVariable_values
  rw [mem_networks_iff] at h
  refine ⟨?_, by decide, ?_⟩
  · rcases h with ⟨rfl, rfl⟩ | ⟨rfl, rfl⟩ | ⟨rfl, rfl⟩ | ⟨rfl, rfl⟩ | ⟨rfl, rfl⟩ |
      ⟨rfl, rfl⟩ | ⟨rfl, rfl⟩
    · cases hf
    all_goals decide
  · rcases h with ⟨rfl, rfl⟩ | ⟨rfl, rfl⟩ | ⟨rfl, rfl⟩ | ⟨rfl, rfl⟩ | ⟨rfl, rfl⟩ |
      ⟨rfl, rfl⟩ | ⟨rfl, rfl⟩
    · cases hf
    · cases hf
      rw [h1]
      exact ⟨fun e => ⟨rfl, rfl⟩, fun e1 e2 hm hu => by simp only [hm, hu]⟩
    · cases hf
      rw [h2]
      exact ⟨fun e => ⟨rfl, rfl⟩, fun e1 e2 hm hu => by simp only [hm, hu]⟩
    · cases hf
      rw [h3]
      exact ⟨fun e => ⟨rfl, rfl⟩, fun e1 e2 hm hu => by simp only [hm, hu]⟩
    · cases hf
      rw [h4]
      exact ⟨fun e => ⟨rfl, rfl⟩, fun e1 e2 hm hu => by simp only [hm, hu]⟩
    · cases hf
      rw [h5]
      exact ⟨fun e => ⟨rfl, rfl⟩, fun e1 e2 hm hu => by simp only [hm, hu]⟩
    · cases hf
      rw [h6]
      exact ⟨fun e => ⟨rfl, rfl⟩, fun e1 e2 hm hu => by simp only [hm, hu]⟩

/-- The statement of C10 for the provider function of "rinkeby". -/
theorem provider_reads_own_variables_witness :
    ("rinkeby", rinkeby) ∈ (config emptyEnv).networks ∧
    rinkeby.provider = some (fun e => ⟨e "MNEMONIC", e "RINKEBY", none⟩) ∧
    "rinkeby" ∈ specPublicNames ∧
    specPublicNames.map specRpcVariable =
      ["ROPSTEN", "RINKEBY", "GOERLI", "BSCTESTNET", "BSCMAINNET", "MAINNET"] ∧
    (∀ e : Env, (HDWalletProvider.mk (e "MNEMONIC") (e "RINKEBY") none).mnemonic
        = e "MNEMONIC" ∧
      (HDWalletProvider.mk (e "MNEMONIC") (e "RINKEBY") none).providerOrUrl
        = e (specRpcVariable "rinkeby")) ∧
    (∀ e1 e2 : Env, e1 "MNEMONIC" = e2 "MNEMONIC" →
      e1 (specRpcVariable "rinkeby") = e2 (specRpcVariable "rinkeby") →
      HDWalletProvider.mk (e1 "MNEMONIC") (e1 "RINKEBY") none
        = HDWalletProvider.mk (e2 "MNEMONIC") (e2 "RINKEBY") none) :=
  have hmem : ("rinkeby", rinkeby) ∈ (config emptyEnv).networks := by
    simp [mem_networks_iff]
  ⟨hmem, rfl, provider_reads_own_variables emptyEnv "rinkeby" rinkeby
    (fun e => ⟨e "MNEMONIC", e "RINKEBY", none⟩) hmem rfl⟩

/-! ## Dependence on the environment -/

/-- C7, as stated, fails: the empty environment and the environment in which only
`ACCOUNT` is set agree on the nine variables of the specification, and the two loaded
configurations differ (in the `from` property of "mainnet"). -/
theorem config_reads_account :
    (∀ v ∈ specVariables, emptyEnv v = accountEnv v) ∧
    config emptyEnv ≠ config accountEnv ∧
    resolve emptyEnv "mainnet" = .ok (.own (mainnet emptyEnv)) ∧
    (mainnet emptyEnv).from_ = none ∧
    resolve accountEnv "mainnet" = .ok (.own (mainnet accountEnv)) ∧
    (mainnet accountEnv).from_ = some "0x0000000000000000000000000000000000000001" := by
  refine ⟨by decide, ?_, rfl, rfl, rfl, rfl⟩
  intro heq
  have hfrom := congrArg
    (fun c : Config => (c.networks.lookup "mainnet").bind NetworkProfile.from_) heq
  revert hfrom
  decide

/-- C7, amended: the configuration depends on the environment only through ten
variables, the nine of the specification and `ACCOUNT`. For every two environments that
agree on these ten, the loaded configurations are equal, and for every network name the
call of the stored provider function gives the same result. -/
theorem config_depends_on_source_variables (e1 e2 : Env)
    (h : ∀ v ∈ sourceVariables, e1 v = e2 v) :
    config e1 = config e2 ∧ ∀ name, connection e1 name = connection e2 name := by
  have hA : e1 "ACCOUNT" = e2 "ACCOUNT" := h _ (by decide)
  have hM : e1 "MNEMONIC" = e2 "MNEMONIC" := h _ (by decide)
  have h1 : e1 "ROPSTEN" = e2 "ROPSTEN" := h _ (by decide)
  have h2 : e1 "RINKEBY" = e2 "RINKEBY" := h _ (by decide)
  have h3 : e1 "GOERLI" = e2 "GOERLI" := h _ (by decide)
  have h4 : e1 "BSCTESTNET" = e2 "BSCTESTNET" := h _ (by decide)
  have h5 : e1 "BSCMAINNET" = e2 "BSCMAINNET" := h _ (by decide)
  have h6 : e1 "MAINNET" = e2 "MAINNET" := h _ (by decide)
  have hE : e1 "ETHERAPI" = e2 "ETHERAPI" := h _ (by decide)
  have hB : e1 "BSCSCAN" = e2 "BSCSCAN" := h _ (by decide)
  have hcfg : config e1 = config e2 := by
    simp only [config, networks, mainnet, api_keys, hA, hE, hB]
  refine ⟨hcfg, ?_⟩
  intro name
  by_cases hkey : name ∈ specNetworkNames
  · rw [mem_specNetworkNames_iff] at hkey
    rcases hkey with rfl | rfl | rfl | rfl | rfl | rfl | rfl
    · rfl
    · show some (HDWalletProvider.mk (e1 "MNEMONIC") (e1 "ROPSTEN") (some 0)) = some ⟨_, _, _⟩
      rw [hM, h1]
    · show some (HDWalletProvider.mk (e1 "MNEMONIC") (e1 "RINKEBY") none) = some ⟨_, _, _⟩
      rw [hM, h2]
    · show some (HDWalletProvider.mk (e1 "MNEMONIC") (e1 "GOERLI") none) = some ⟨_, _, _⟩
      rw [hM, h3]
    · show some (HDWalletProvider.mk (e1 "MNEMONIC") (e1 "BSCTESTNET") none) = some ⟨_, _, _⟩
      rw [hM, h4]
    · show some (HDWalletProvider.mk (e1 "MNEMONIC") (e1 "BSCMAINNET") none) = some ⟨_, _, _⟩
      rw [hM, h5]
    · show some (HDWalletProvider.mk (e1 "MNEMONIC") (e1 "MAINNET") (some 0)) = some ⟨_, _, _⟩
      rw [hM, h6]
  · simp only [connection, lookup_of_not_key _ name hkey]

/-- The amended C7 for an environment with every secret set and the same environment
with `PATH` set as well. -/
theorem config_depends_on_source_variables_witness :
    (∀ v ∈ sourceVariables, fullEnv v = fullEnvWithPath v) ∧
    config fullEnv = config fullEnvWithPath ∧
    ∀ name, connection fullEnv name = connection fullEnvWithPath name :=
  ⟨by decide, config_depends_on_source_variables fullEnv fullEnvWithPath (by decide)⟩

end TruffleConfig
